import Mathlib

/-
  Verification of the rfm69-rs radio driver against its specification.

  The definitions below are a shallow embedding of the Rust sources:
    - registers.rs : the Register enumeration and its read/write opcodes
    - settings.rs  : the SyncConfiguration encoder
    - rfm69.rs     : the stateful driver (SPI transactions are modelled by an
      oracle assigning to each transaction index a success flag and response
      bytes; every transaction issued is recorded in a trace)

  Machine integers are modelled as Nat (u8, u32) and Int (i8), with explicit
  masks or mod where the Rust code wraps. Poll loops, which the source leaves
  unbounded, take an explicit fuel argument; running out of fuel yields the
  dedicated outcome spin.
-/

namespace Rfm69

/-- Error enumeration of rfm69.rs (enum Rfm69Error). -/
inductive Rfm69Error where
  | ResetError
  | SpiWriteError
  | SpiReadError
  | ConfigurationError
  | MessageTooLarge
  | InvalidMode
  deriving DecidableEq

/-- Operating modes of rfm69.rs (enum Rfm69Mode). -/
inductive Rfm69Mode where
  | Sleep
  | Standby
  | Fs
  | Tx
  | Rx
  deriving DecidableEq

/-- Discriminant of each Rfm69Mode variant in rfm69.rs. -/
def Rfm69Mode.code : Rfm69Mode → Nat
  | .Sleep => 0x00
  | .Standby => 0x04
  | .Fs => 0x08
  | .Tx => 0x0C
  | .Rx => 0x10

/-- Register enumeration of registers.rs, one constructor per variant. -/
inductive Register where
  | Fifo
  | RegOpMode
  | DataModul
  | BitrateMsb
  | BitrateLsb
  | FdevMsb
  | FdevLsb
  | FrfMsb
  | FrfMid
  | FrfLsb
  | Osc1
  | AfcCtrl
  | LowBat
  | Listen1
  | Listen2
  | Listen3
  | Version
  | PaLevel
  | PaRamp
  | Ocp
  | AgcRef
  | AgcThresh1
  | AgcThresh2
  | AgcThresh3
  | Lna
  | RxBw
  | AfcBw
  | OokPeak
  | OokAvg
  | OokFix
  | AfcFei
  | AfcMsb
  | AfcLsb
  | FeiMsb
  | FeiLsb
  | RssiConfig
  | RssiValue
  | DioMapping1
  | DioMapping2
  | IrqFlags1
  | IrqFlags2
  | RssiThresh
  | RxTimeout1
  | RxTimeout2
  | PreambleMsb
  | PreambleLsb
  | SyncConfig
  | SyncValue1
  | SyncValue2
  | SyncValue3
  | SyncValue4
  | SyncValue5
  | SyncValue6
  | SyncValue7
  | SyncValue8
  | PacketConfig1
  | PayloadLength
  | NodeAddrs
  | BroadcastAddrs
  | AutoModes
  | FifoThresh
  | PacketConfig2
  | AesKey1
  | AesKey2
  | AesKey3
  | AesKey4
  | AesKey5
  | AesKey6
  | AesKey7
  | AesKey8
  | AesKey9
  | AesKey10
  | AesKey11
  | AesKey12
  | AesKey13
  | AesKey14
  | AesKey15
  | AesKey16
  | Temp1
  | Temp2
  | TestLna
  | TestPa1
  | TestPa2
  | TestDagc
  deriving DecidableEq, Fintype

/-- Discriminant of each Register variant in registers.rs (self as u8). -/
def Register.addr : Register → Nat
  | .Fifo => 0x00
  | .RegOpMode => 0x01
  | .DataModul => 0x02
  | .BitrateMsb => 0x03
  | .BitrateLsb => 0x04
  | .FdevMsb => 0x05
  | .FdevLsb => 0x06
  | .FrfMsb => 0x07
  | .FrfMid => 0x08
  | .FrfLsb => 0x09
  | .Osc1 => 0x0A
  | .AfcCtrl => 0x0B
  | .LowBat => 0x0C
  | .Listen1 => 0x0D
  | .Listen2 => 0x0E
  | .Listen3 => 0x0F
  | .Version => 0x10
  | .PaLevel => 0x11
  | .PaRamp => 0x12
  | .Ocp => 0x13
  | .AgcRef => 0x14
  | .AgcThresh1 => 0x15
  | .AgcThresh2 => 0x16
  | .AgcThresh3 => 0x17
  | .Lna => 0x18
  | .RxBw => 0x19
  | .AfcBw => 0x1A
  | .OokPeak => 0x1B
  | .OokAvg => 0x1C
  | .OokFix => 0x1D
  | .AfcFei => 0x1E
  | .AfcMsb => 0x1F
  | .AfcLsb => 0x20
  | .FeiMsb => 0x21
  | .FeiLsb => 0x22
  | .RssiConfig => 0x23
  | .RssiValue => 0x24
  | .DioMapping1 => 0x25
  | .DioMapping2 => 0x26
  | .IrqFlags1 => 0x27
  | .IrqFlags2 => 0x28
  | .RssiThresh => 0x29
  | .RxTimeout1 => 0x2A
  | .RxTimeout2 => 0x2B
  | .PreambleMsb => 0x2C
  | .PreambleLsb => 0x2D
  | .SyncConfig => 0x2E
  | .SyncValue1 => 0x2F
  | .SyncValue2 => 0x30
  | .SyncValue3 => 0x31
  | .SyncValue4 => 0x32
  | .SyncValue5 => 0x33
  | .SyncValue6 => 0x34
  | .SyncValue7 => 0x35
  | .SyncValue8 => 0x36
  | .PacketConfig1 => 0x37
  | .PayloadLength => 0x38
  | .NodeAddrs => 0x39
  | .BroadcastAddrs => 0x3A
  | .AutoModes => 0x3B
  | .FifoThresh => 0x3C
  | .PacketConfig2 => 0x3D
  | .AesKey1 => 0x3E
  | .AesKey2 => 0x3F
  | .AesKey3 => 0x40
  | .AesKey4 => 0x41
  | .AesKey5 => 0x42
  | .AesKey6 => 0x43
  | .AesKey7 => 0x44
  | .AesKey8 => 0x45
  | .AesKey9 => 0x46
  | .AesKey10 => 0x47
  | .AesKey11 => 0x48
  | .AesKey12 => 0x49
  | .AesKey13 => 0x4A
  | .AesKey14 => 0x4B
  | .AesKey15 => 0x4C
  | .AesKey16 => 0x4D
  | .Temp1 => 0x4E
  | .Temp2 => 0x4F
  | .TestLna => 0x58
  | .TestPa1 => 0x5A
  | .TestPa2 => 0x5C
  | .TestDagc => 0x6F

/-- Constant READ_MASK of registers.rs. -/
def READ_MASK : Nat := 0x7F

/-- Constant WRITE_MASK of registers.rs. -/
def WRITE_MASK : Nat := 0x80

/-- Read opcode of a register, from registers.rs: (self as u8) AND READ_MASK. -/
def Register.read (r : Register) : Nat := r.addr &&& READ_MASK

/-- Write opcode of a register, from registers.rs: (self as u8) OR WRITE_MASK. -/
def Register.write (r : Register) : Nat := r.addr ||| WRITE_MASK

/-- Rust Ord::clamp on Nat: clampN x lo hi moves x into the interval lo..hi. -/
def clampN (x lo hi : Nat) : Nat := max lo (min x hi)

/-- Rust Ord::clamp on Int, used for the i8 power argument. -/
def clampI (x lo hi : Int) : Int := max lo (min x hi)

/-- Sync configuration of settings.rs (enum SyncConfiguration). -/
inductive SyncConfiguration where
  | SyncOff
  | FifoFillAuto (sync_tolerance : Nat)
  | FifoFillManual (sync_tolerance : Nat)
  deriving DecidableEq

/-- Sync configuration byte, from SyncConfiguration::value in settings.rs. -/
def SyncConfiguration.value : SyncConfiguration → Nat → Nat
  | .SyncOff, _ => 0x00
  | .FifoFillAuto sync_tolerance, sync_size =>
      0x80 ||| 0x00 ||| ((clampN sync_size 1 8 - 1) <<< 3) ||| clampN sync_tolerance 0 7
  | .FifoFillManual sync_tolerance, sync_size =>
      0x80 ||| 0x40 ||| ((clampN sync_size 1 8 - 1) <<< 3) ||| clampN sync_tolerance 0 7

/-- One SPI bus transaction as issued by the driver. -/
inductive SpiReq where
  | read (addr : Nat) (len : Nat)
  | write (addr : Nat) (data : List Nat)
  deriving DecidableEq

/-- Behaviour of the external transport: for each transaction index, whether
the transaction succeeds and which bytes a read returns. This stands for the
ReadWrite trait implementation, which is outside the core. -/
structure SpiOracle where
  ok : Nat → Bool
  data : Nat → List Nat

/-- Driver state: the cached fields of struct Rfm69 (tx_power, is_high_power,
current_mode) together with the transport oracle, the index of the next
transaction and the trace of transactions issued so far. -/
structure DState where
  oracle : SpiOracle
  idx : Nat
  trace : List SpiReq
  tx_power : Int
  is_high_power : Bool
  current_mode : Rfm69Mode

/-- Outcome of running a driver computation: normal return, an Err value,
a Rust panic, or spin when a poll loop exhausts its fuel (the source loops
forever). Each outcome keeps the state reached. -/
inductive MRes (α : Type) where
  | ok (a : α) (s : DState)
  | err (e : Rfm69Error) (s : DState)
  | panic (s : DState)
  | spin (s : DState)

/-- A driver computation: state in, outcome out. -/
def M (α : Type) : Type := DState → MRes α

/-- State reached by an outcome, whatever its kind. -/
def resState {α : Type} : MRes α → DState
  | .ok _ s => s
  | .err _ s => s
  | .panic s => s
  | .spin s => s

/-- Returned value of an outcome, when it is a normal return. -/
def resVal {α : Type} : MRes α → Option α
  | .ok a _ => some a
  | _ => none

/-- Whether an outcome is a Rust panic. -/
def isPanic {α : Type} : MRes α → Bool
  | .panic _ => true
  | _ => false

/-- Sequencing of driver computations; Err, panic and spin short-circuit,
mirroring the question-mark operator, unwrap and unbounded loops. -/
def mbind {α β : Type} (x : M α) (f : α → M β) : M β := fun s =>
  match x s with
  | .ok a s2 => f a s2
  | .err e s2 => .err e s2
  | .panic s2 => .panic s2
  | .spin s2 => .spin s2

/-- Pure computation. -/
def mpure {α : Type} (a : α) : M α := fun s => .ok a s

/-- Record one issued transaction: the trace grows and the index advances. -/
def spiStep (s : DState) (req : SpiReq) : DState :=
  { s with idx := s.idx + 1, trace := s.trace ++ [req] }

/-- Bytes a hardware read of n bytes yields from the oracle response: the
response is truncated or zero-padded to exactly n bytes, each a u8. -/
def fill (d : List Nat) (n : Nat) : List Nat :=
  (d.take n ++ List.replicate (n - d.length) 0).map (· % 256)

/-- Single-register read at a raw address; a transport failure becomes
SpiWriteError, exactly as Rfm69::read_register maps its error. -/
def read_register_at (addr : Nat) : M Nat := fun s =>
  if s.oracle.ok s.idx then
    .ok ((fill (s.oracle.data s.idx) 1).headD 0) (spiStep s (.read addr 1))
  else
    .err .SpiWriteError (spiStep s (.read addr 1))

/-- Rfm69::read_register: one-byte read, failure mapped to SpiWriteError. -/
def read_register (r : Register) : M Nat := read_register_at r.addr

/-- Rfm69::read_many: burst read of n bytes, failure mapped to SpiReadError. -/
def read_many (r : Register) (n : Nat) : M (List Nat) := fun s =>
  if s.oracle.ok s.idx then
    .ok (fill (s.oracle.data s.idx) n) (spiStep s (.read r.addr n))
  else
    .err .SpiReadError (spiStep s (.read r.addr n))

/-- Rfm69::write_many: burst write, failure mapped to SpiWriteError. -/
def write_many (r : Register) (values : List Nat) : M Unit := fun s =>
  if s.oracle.ok s.idx then
    .ok () (spiStep s (.write r.addr values))
  else
    .err .SpiWriteError (spiStep s (.write r.addr values))

/-- Rfm69::write_register, a one-byte write_many. -/
def write_register (r : Register) (value : Nat) : M Unit := write_many r [value]

/-- Result::unwrap as used in Rfm69::receive: an Err outcome aborts the
program (panic) instead of being returned. -/
def unwrapM {α : Type} (x : M α) : M α := fun s =>
  match x s with
  | .ok a s2 => .ok a s2
  | .err _ s2 => .panic s2
  | .panic s2 => .panic s2
  | .spin s2 => .spin s2

/-- Modelled from the spec: constant RF_PALEVEL_PA0_ON is imported by
rfm69.rs from settings.rs but absent from the provided settings.rs; the value
is the PA0 enable bit of the power-amplifier-level register (bit 7 on the
hardware, consistent with the spec naming PA0/PA1/PA2). -/
def RF_PALEVEL_PA0_ON : Nat := 0x80

/-- Modelled from the spec: constant RF_PALEVEL_PA1_ON, absent from the
provided settings.rs; the value 0x40 is fixed by the spec test vector
compute(-2, high_power = true) == 0x50 = 0x40 OR 0x10. -/
def RF_PALEVEL_PA1_ON : Nat := 0x40

/-- Modelled from the spec: constant RF_PALEVEL_PA2_ON, absent from the
provided settings.rs; the value is the PA2 enable bit (bit 5 on the
hardware). -/
def RF_PALEVEL_PA2_ON : Nat := 0x20

/-- Modelled from the spec: constant RF_PALEVEL_OUTPUTPOWER_11111, absent
from the provided settings.rs; the five output-power bits, matching the
spec offsets AND 0x1F. -/
def RF_PALEVEL_OUTPUTPOWER_11111 : Nat := 0x1F

/-- Low byte of an i8 value reinterpreted as u8, as in the Rust cast
(x as u8); i8 overflow is modelled with release-build wrap-around. -/
def toU8I (x : Int) : Nat := (x % 256).toNat

/-- The pa_level byte computed inside Rfm69::set_tx_power, transcribed
verbatim: the boosted branches take their offset from the raw tx_power
argument while the clamped value only selects the branch; the non-boosted
branch uses the clamped value. -/
def pa_level_of (tx_power : Int) (is_high_power : Bool) : Nat :=
  if is_high_power then
    let clamped_power := clampI tx_power (-2) 20
    if clamped_power ≤ 13 then
      RF_PALEVEL_PA1_ON ||| (toU8I (tx_power + 18) &&& RF_PALEVEL_OUTPUTPOWER_11111)
    else if 18 ≤ clamped_power then
      RF_PALEVEL_PA1_ON ||| RF_PALEVEL_PA2_ON |||
        (toU8I (tx_power + 11) &&& RF_PALEVEL_OUTPUTPOWER_11111)
    else
      RF_PALEVEL_PA1_ON ||| RF_PALEVEL_PA2_ON |||
        (toU8I (tx_power + 14) &&& RF_PALEVEL_OUTPUTPOWER_11111)
  else
    let clamped_power := clampI tx_power (-18) 13
    RF_PALEVEL_PA0_ON ||| (toU8I (clamped_power + 18) &&& RF_PALEVEL_OUTPUTPOWER_11111)

/-- Cache the raw power argument, the final assignment of set_tx_power. -/
def cache_power (p : Int) : M Unit := fun s => .ok () { s with tx_power := p }

/-- Rfm69::set_tx_power: write the pa_level byte to the PaLevel register,
then cache the raw argument. -/
def set_tx_power (tx_power : Int) : M Unit := fun s =>
  mbind (write_register Register.PaLevel (pa_level_of tx_power s.is_high_power))
    (fun _ => cache_power tx_power) s

/-- Modelled from the spec: constant RF69_FSTEP, imported by rfm69.rs from
settings.rs but absent from the provided settings.rs. The spec formula
word = freq_mhz * F_STEP_NUMERATOR / F_OSC_DENOMINATOR with the spec vector
compute(915) == [0xE4, 0xC0, 0x00] fixes the ratio at 16384 = 2 pow 19 / 32,
the datasheet synthesizer step with the oscillator expressed in MHz. -/
def RF69_FSTEP : Nat := 524288

/-- Modelled from the spec: constant RF69_FXOSC, absent from the provided
settings.rs; denominator 32 pairs with RF69_FSTEP above. -/
def RF69_FXOSC : Nat := 32

/-- Rfm69::set_frequency: compute the synthesizer word in u32 arithmetic
(the multiplication wraps mod 2 pow 32 as in a release build), split it into
three bytes and burst-write them at the FrfMsb register. -/
def set_frequency (freq_mhz : Nat) : M Unit :=
  let frf := (freq_mhz * RF69_FSTEP) % 4294967296 / RF69_FXOSC
  let msb := (frf >>> 16) &&& 0xFF
  let mid := (frf >>> 8) &&& 0xFF
  let lsb := frf &&& 0xFF
  write_many Register.FrfMsb [msb, mid, lsb]

/-- Cache the target mode, the final assignment of set_mode. -/
def cache_mode (m : Rfm69Mode) : M Unit := fun s =>
  .ok () { s with current_mode := m }

/-- The test-PA register writes at the top of Rfm69::set_mode: entering Rx
or Tx with a cached power of at least 18 dBm rewrites TestPa1 and TestPa2. -/
def boost_toggle (mode : Rfm69Mode) : M Unit := fun s =>
  (match mode with
   | .Rx =>
       if 18 ≤ s.tx_power then
         mbind (write_register Register.TestPa1 0x55)
           (fun _ => write_register Register.TestPa2 0x70)
       else mpure ()
   | .Tx =>
       if 18 ≤ s.tx_power then
         mbind (write_register Register.TestPa1 0x5D)
           (fun _ => write_register Register.TestPa2 0x7C)
       else mpure ()
   | _ => mpure ()) s

/-- The mode-ready poll of Rfm69::set_mode: read IrqFlags1 until bit 7 is
set; fuel bounds the number of reads, running out yields spin. -/
def poll_mode_ready : Nat → M Unit
  | 0 => fun s => .spin s
  | fuel + 1 =>
      mbind (read_register Register.IrqFlags1) (fun v =>
        if v &&& 0x80 == 0x00 then poll_mode_ready fuel else mpure ())

/-- Rfm69::set_mode: a no-op when the cached mode already equals the target;
otherwise toggle the test-PA registers if needed, read RegOpMode, replace its
mode field (RegOpMode is named OpMode in rfm69.rs; AND NOT 0x1C is AND 0xE3
on a u8), write it back, poll mode-ready and cache the target. -/
def set_mode (fuel : Nat) (mode : Rfm69Mode) : M Unit := fun s =>
  if s.current_mode = mode then .ok () s
  else
    mbind (boost_toggle mode) (fun _ =>
      mbind (read_register Register.RegOpMode) (fun current =>
        mbind (write_register Register.RegOpMode
            ((current &&& 0xE3) ||| (mode.code &&& 0x1C))) (fun _ =>
          mbind (poll_mode_ready fuel) (fun _ => cache_mode mode)))) s

/-- The packet-sent poll of Rfm69::wait_packet_sent: read IrqFlags2 until
bit 3 is set, with fuel as for the other polls. -/
def wait_packet_sent : Nat → M Unit
  | 0 => fun s => .spin s
  | fuel + 1 =>
      mbind (read_register Register.IrqFlags2) (fun v =>
        if v &&& 0x08 == 0x00 then wait_packet_sent fuel else mpure ())

/-- The frame bytes Rfm69::send burst-writes: length byte (payload length
plus 4, cast to u8), the fixed header FF FF 00 00, then the payload. -/
def frame (data : List Nat) : List Nat :=
  ((data.length + 4) % 256) :: 0xFF :: 0xFF :: 0x00 :: 0x00 :: data

/-- Rfm69::send: reject payloads over 60 bytes before any transaction,
otherwise burst-write the frame to the Fifo register, enter Tx, wait for the
packet-sent flag and return to Standby. -/
def send (fuel : Nat) (data : List Nat) : M Unit := fun s =>
  if 60 < data.length then .err .MessageTooLarge s
  else
    mbind (write_many Register.Fifo (frame data)) (fun _ =>
      mbind (set_mode fuel .Tx) (fun _ =>
        mbind (wait_packet_sent fuel) (fun _ => set_mode fuel .Standby))) s

/-- Rfm69::receive with its fixed 65-byte buffer: read the length byte from
the FIFO, fail with MessageTooLarge when it exceeds the buffer, discard the
4-byte header (read_many result unwrapped), then read length minus 4 payload
bytes (also unwrapped). The u8 subtraction length minus 4 underflows for a
length byte below 4: a debug build panics there, and a release build wraps
and panics on the resulting out-of-bounds slice, so both abort. -/
def receive : M Nat :=
  mbind (read_register Register.Fifo) (fun message_len =>
    if 65 < message_len then fun s => .err .MessageTooLarge s
    else
      mbind (unwrapM (read_many Register.Fifo 4)) (fun _ =>
        if message_len < 4 then fun s => .panic s
        else
          mbind (unwrapM (read_many Register.Fifo (message_len - 4)))
            (fun _ => mpure (message_len - 4))))

/-- Rfm69::is_message_available: InvalidMode unless the cached mode is Rx,
otherwise test bit 2 of IrqFlags2. -/
def is_message_available : M Bool := fun s =>
  if s.current_mode ≠ Rfm69Mode.Rx then .err .InvalidMode s
  else
    mbind (read_register Register.IrqFlags2)
      (fun v => mpure ((v &&& 0x04) == 0x04)) s

/-- Rfm69::rssi: half the raw RssiValue byte. -/
def rssi : M Nat :=
  mbind (read_register Register.RssiValue) (fun r => mpure (r / 2))

/-- Rfm69::read_revision: read the Version register. -/
def read_revision : M Nat := read_register Register.Version

/-- Modelled from the spec: rfm69.rs reads a Register::TestAfc variant that
is absent from the provided registers.rs and from the spec register
enumeration; its hardware datasheet address 0x71 is used here, and no claim
depends on the value. -/
def TESTAFC_ADDR : Nat := 0x71

/-- Rfm69::read_all_registers: one 79-byte burst read starting at RegOpMode
giving pairs (index + 1, byte), followed by five individually addressed test
register reads (TestLna, TestPa1, TestPa2, TestDagc and the modelled
TestAfc), 84 pairs in all. -/
def read_all_registers : M (List (Nat × Nat)) :=
  mbind (read_many Register.RegOpMode 79) (fun registers =>
    let mapped := (List.range 79).map (fun index => (index + 1, registers.getD index 0))
    mbind (read_register Register.TestLna) (fun v0 =>
      mbind (read_register Register.TestPa1) (fun v1 =>
        mbind (read_register Register.TestPa2) (fun v2 =>
          mbind (read_register Register.TestDagc) (fun v3 =>
            mbind (read_register_at TESTAFC_ADDR) (fun v4 =>
              mpure (mapped ++
                [(Register.TestLna.addr, v0), (Register.TestPa1.addr, v1),
                 (Register.TestPa2.addr, v2), (Register.TestDagc.addr, v3),
                 (TESTAFC_ADDR, v4)])))))))

/-- Transmit-power law exactly as claim C1 states it: the piecewise offsets
applied to the CLAMPED power in every branch. Compare with pa_level_of,
which transcribes the source. -/
def claimPaLevel (p : Int) (high : Bool) : Nat :=
  if high then
    let c := clampI p (-2) 20
    if c ≤ 13 then
      RF_PALEVEL_PA1_ON ||| (toU8I (c + 18) &&& RF_PALEVEL_OUTPUTPOWER_11111)
    else if 18 ≤ c then
      RF_PALEVEL_PA1_ON ||| RF_PALEVEL_PA2_ON |||
        (toU8I (c + 11) &&& RF_PALEVEL_OUTPUTPOWER_11111)
    else
      RF_PALEVEL_PA1_ON ||| RF_PALEVEL_PA2_ON |||
        (toU8I (c + 14) &&& RF_PALEVEL_OUTPUTPOWER_11111)
  else
    let c := clampI p (-18) 13
    RF_PALEVEL_PA0_ON ||| (toU8I (c + 18) &&& RF_PALEVEL_OUTPUTPOWER_11111)

/-- Frequency register bytes as the spec words them: exact integer product,
truncating division, 24-bit word split big-endian. Compare with
set_frequency, which transcribes the wrapping u32 arithmetic. -/
def specFreqBytes (freq_mhz : Nat) : List Nat :=
  let word := freq_mhz * RF69_FSTEP / RF69_FXOSC
  [(word >>> 16) &&& 0xFF, (word >>> 8) &&& 0xFF, word &&& 0xFF]

/-- Transport on which every transaction succeeds and every read returns
zero bytes. -/
def okOracle : SpiOracle := { ok := fun _ => true, data := fun _ => [] }

/-- Freshly constructed driver (Rfm69::new defaults: power 13, high power,
Standby) attached to okOracle, with an empty trace. -/
def st0 : DState :=
  { oracle := okOracle, idx := 0, trace := [], tx_power := 13,
    is_high_power := true, current_mode := .Standby }

/-- Transport whose first transaction succeeds returning byte 9 and whose
second transaction fails. -/
def failSecondOracle : SpiOracle := { ok := fun n => n == 0, data := fun _ => [9] }

/-- Driver state attached to failSecondOracle. -/
def stFailSecond : DState := { st0 with oracle := failSecondOracle }

/-- Transport on which every transaction succeeds and every read returns
byte 2 (a length byte below 4). -/
def lenTwoOracle : SpiOracle := { ok := fun _ => true, data := fun _ => [2] }

/-- Driver state attached to lenTwoOracle. -/
def stLenTwo : DState := { st0 with oracle := lenTwoOracle }

/-- Transport on which every transaction fails. -/
def failAllOracle : SpiOracle := { ok := fun _ => false, data := fun _ => [] }

/-- Driver state in Rx mode whose transport fails every transaction. -/
def stFailAllRx : DState :=
  { st0 with oracle := failAllOracle, current_mode := .Rx }

/-- A computation only ever appends to the transaction trace. -/
def extendsTrace {α : Type} (x : M α) : Prop :=
  ∀ s : DState, ∃ t : List SpiReq, (resState (x s)).trace = s.trace ++ t

theorem extendsTrace_mpure {α : Type} (a : α) : extendsTrace (mpure a) :=
  fun _ => ⟨[], by simp [mpure, resState]⟩

theorem extendsTrace_read_register_at (addr : Nat) :
    extendsTrace (read_register_at addr) := by
  intro s
  unfold read_register_at
  split <;> exact ⟨[SpiReq.read addr 1], rfl⟩

theorem extendsTrace_read_register (r : Register) :
    extendsTrace (read_register r) := extendsTrace_read_register_at r.addr

theorem extendsTrace_read_many (r : Register) (n : Nat) :
    extendsTrace (read_many r n) := by
  intro s
  unfold read_many
  split <;> exact ⟨[SpiReq.read r.addr n], rfl⟩

theorem extendsTrace_write_many (r : Register) (vs : List Nat) :
    extendsTrace (write_many r vs) := by
  intro s
  unfold write_many
  split <;> exact ⟨[SpiReq.write r.addr vs], rfl⟩

theorem extendsTrace_write_register (r : Register) (v : Nat) :
    extendsTrace (write_register r v) := extendsTrace_write_many r [v]

theorem extendsTrace_cache_mode (m : Rfm69Mode) : extendsTrace (cache_mode m) :=
  fun _ => ⟨[], by simp [cache_mode, resState]⟩

theorem extendsTrace_cache_power (p : Int) : extendsTrace (cache_power p) :=
  fun _ => ⟨[], by simp [cache_power, resState]⟩

theorem extendsTrace_mbind {α β : Type} {x : M α} {f : α → M β}
    (hx : extendsTrace x) (hf : ∀ a : α, extendsTrace (f a)) :
    extendsTrace (mbind x f) := by
  intro s
  obtain ⟨t1, ht1⟩ := hx s
  unfold mbind
  cases h : x s with
  | ok a s2 =>
      obtain ⟨t2, ht2⟩ := hf a s2
      rw [h] at ht1
      simp only [resState] at ht1
      exact ⟨t1 ++ t2, by rw [ht2, ht1, List.append_assoc]⟩
  | err e s2 => rw [h] at ht1; exact ⟨t1, ht1⟩
  | panic s2 => rw [h] at ht1; exact ⟨t1, ht1⟩
  | spin s2 => rw [h] at ht1; exact ⟨t1, ht1⟩

theorem extendsTrace_boost_toggle (m : Rfm69Mode) : extendsTrace (boost_toggle m) := by
  intro s
  unfold boost_toggle
  cases m <;> simp only
  case Rx =>
    split
    · exact extendsTrace_mbind (extendsTrace_write_register _ _)
        (fun _ => extendsTrace_write_register _ _) s
    · exact extendsTrace_mpure () s
  case Tx =>
    split
    · exact extendsTrace_mbind (extendsTrace_write_register _ _)
        (fun _ => extendsTrace_write_register _ _) s
    · exact extendsTrace_mpure () s
  all_goals exact extendsTrace_mpure () s

theorem extendsTrace_poll_mode_ready (fuel : Nat) :
    extendsTrace (poll_mode_ready fuel) := by
  induction fuel with
  | zero => intro s; exact ⟨[], by simp [poll_mode_ready, resState]⟩
  | succ n ih =>
      rw [poll_mode_ready]
      refine extendsTrace_mbind (extendsTrace_read_register _) (fun v => ?_)
      split
      · exact ih
      · exact extendsTrace_mpure ()

theorem extendsTrace_wait_packet_sent (fuel : Nat) :
    extendsTrace (wait_packet_sent fuel) := by
  induction fuel with
  | zero => intro s; exact ⟨[], by simp [wait_packet_sent, resState]⟩
  | succ n ih =>
      rw [wait_packet_sent]
      refine extendsTrace_mbind (extendsTrace_read_register _) (fun v => ?_)
      split
      · exact ih
      · exact extendsTrace_mpure ()

theorem extendsTrace_set_mode (fuel : Nat) (m : Rfm69Mode) :
    extendsTrace (set_mode fuel m) := by
  intro s
  unfold set_mode
  split
  · exact ⟨[], by simp [resState]⟩
  · exact extendsTrace_mbind (extendsTrace_boost_toggle m) (fun _ =>
      extendsTrace_mbind (extendsTrace_read_register _) (fun current =>
        extendsTrace_mbind (extendsTrace_write_register _ _) (fun _ =>
          extendsTrace_mbind (extendsTrace_poll_mode_ready fuel) (fun _ =>
            extendsTrace_cache_mode m)))) s

theorem write_many_trace (r : Register) (vs : List Nat) (s : DState) :
    (resState (write_many r vs s)).trace = s.trace ++ [SpiReq.write r.addr vs] := by
  unfold write_many
  split <;> rfl

theorem mbind_write_trace (r : Register) (vs : List Nat) (k : Unit → M Unit)
    (hk : extendsTrace (k ())) (s : DState) :
    ∃ t : List SpiReq, (resState (mbind (write_many r vs) k s)).trace =
      s.trace ++ SpiReq.write r.addr vs :: t := by
  by_cases hok : s.oracle.ok s.idx = true
  · have hw : mbind (write_many r vs) k s = k () (spiStep s (.write r.addr vs)) := by
      unfold mbind write_many
      rw [if_pos hok]
    rw [hw]
    obtain ⟨t2, ht2⟩ := hk (spiStep s (.write r.addr vs))
    refine ⟨t2, ?_⟩
    rw [ht2]
    simp [spiStep]
  · have hw : mbind (write_many r vs) k s =
        .err .SpiWriteError (spiStep s (.write r.addr vs)) := by
      unfold mbind write_many
      rw [if_neg hok]
    rw [hw]
    exact ⟨[], by simp [resState, spiStep]⟩

theorem mbind_ok {α β : Type} {x : M α} {f : α → M β} {s : DState} {b : β}
    {s2 : DState} (h : mbind x f s = .ok b s2) :
    ∃ a : α, ∃ s3 : DState, x s = .ok a s3 ∧ f a s3 = .ok b s2 := by
  unfold mbind at h
  cases hx : x s with
  | ok a s3 => rw [hx] at h; exact ⟨a, s3, rfl, h⟩
  | err e s3 => rw [hx] at h; simp at h
  | panic s3 => rw [hx] at h; simp at h
  | spin s3 => rw [hx] at h; simp at h

theorem set_mode_ok_mode {fuel : Nat} {m : Rfm69Mode} {s s2 : DState}
    (h : set_mode fuel m s = .ok () s2) : s2.current_mode = m := by
  unfold set_mode at h
  split at h
  · rename_i hm
    injection h with h1 h2
    rw [← h2]
    exact hm
  · obtain ⟨_, s3, _, h3⟩ := mbind_ok h
    obtain ⟨cur, s4, _, h4⟩ := mbind_ok h3
    obtain ⟨_, s5, _, h5⟩ := mbind_ok h4
    obtain ⟨_, s6, _, h6⟩ := mbind_ok h5
    unfold cache_mode at h6
    injection h6 with h7 h8
    rw [← h8]

/-- C4: the sync-configuration byte is: SyncOff to 0x00 for every word count;
FifoFillAuto with tolerance t to 0x80 OR ((clamp(n,1,8) - 1) shifted left by
3) OR clamp(t,0,7); FifoFillManual to the same value with bit 6 additionally
set; and any tolerance above 7 encodes identically to tolerance 7. -/
theorem C4_sync_value (t n : Nat) :
    SyncConfiguration.SyncOff.value n = 0x00 ∧
    (SyncConfiguration.FifoFillAuto t).value n =
      0x80 ||| ((clampN n 1 8 - 1) <<< 3) ||| clampN t 0 7 ∧
    (SyncConfiguration.FifoFillManual t).value n =
      (SyncConfiguration.FifoFillAuto t).value n ||| 0x40 ∧
    (7 < t →
      (SyncConfiguration.FifoFillAuto t).value n =
        (SyncConfiguration.FifoFillAuto 7).value n ∧
      (SyncConfiguration.FifoFillManual t).value n =
        (SyncConfiguration.FifoFillManual 7).value n) := by
  have ha1 : 1 ≤ clampN n 1 8 := by unfold clampN; omega
  have ha8 : clampN n 1 8 ≤ 8 := by unfold clampN; omega
  have hb7 : clampN t 0 7 ≤ 7 := by unfold clampN; omega
  refine ⟨rfl, ?_, ?_, ?_⟩
  · simp [SyncConfiguration.value]
  · simp only [SyncConfiguration.value]
    generalize hA : clampN n 1 8 = a at ha1 ha8
    generalize hB : clampN t 0 7 = b at hb7
    interval_cases a <;> interval_cases b <;> decide
  · intro ht
    have h7 : clampN t 0 7 = 7 := by unfold clampN; omega
    have h77 : clampN 7 0 7 = 7 := by decide
    constructor <;> simp only [SyncConfiguration.value, h7, h77]

/-- C4 witness: a tolerance of 14 encodes like a tolerance of 7 with eight
sync words in auto fill mode. -/
theorem C4_sync_value_witness :
    (SyncConfiguration.FifoFillAuto 14).value 8 =
      (SyncConfiguration.FifoFillAuto 7).value 8 :=
  ((C4_sync_value 14 8).2.2.2 (by decide)).1

/-- C6: for every register of the closed enumeration, the write opcode is
the read opcode with bit 7 set, the read opcode is the write opcode with
bit 7 cleared, every address fits in 7 bits, and the two opcodes differ by
exactly 128, that is in bit 7 alone. -/
theorem C6_register_opcodes :
    ∀ R : Register,
      R.write = R.read ||| 0x80 ∧ R.read = R.write &&& 0x7F ∧
      R.addr < 128 ∧ R.write = R.read + 128 := by decide

/-- C1 counterexample: set_tx_power 21 on a boosted-topology driver writes
byte 0x60 (the raw argument feeds the offset, (21 + 11) AND 0x1F = 0), while
the claim law applied to the clamped power 20 gives 0x7F; so the written
byte is not the claim byte. -/
theorem C1_counterexample :
    (resState (set_tx_power 21 st0)).trace =
      [SpiReq.write Register.PaLevel.addr [0x60]] ∧
    claimPaLevel 21 true = 0x7F ∧
    (resState (set_tx_power 21 st0)).trace ≠
      [SpiReq.write Register.PaLevel.addr [claimPaLevel 21 true]] := by
  refine ⟨by decide, by decide, by decide⟩

/-- C1 amended: set_tx_power issues exactly one write, of the pa_level_of
byte, to the PaLevel register, where pa_level_of selects its boosted branch
by the clamped power but computes the offset from the raw argument (the
non-boosted branch offsets the clamped value); on success the cached
tx_power equals the raw argument; pa_level_of sends -2 on the boosted
topology to 0x50; and inside the clamp range the claim law agrees. -/
theorem C1_set_tx_power (p : Int) (s : DState) :
    (resState (set_tx_power p s)).trace =
      s.trace ++ [SpiReq.write Register.PaLevel.addr
        [pa_level_of p s.is_high_power]] ∧
    (∀ s2 : DState, set_tx_power p s = .ok () s2 → s2.tx_power = p) ∧
    pa_level_of (-2) true = 0x50 ∧
    (-2 ≤ p → p ≤ 20 → pa_level_of p true = claimPaLevel p true) := by
  refine ⟨?_, ?_, by decide, ?_⟩
  · by_cases hok : s.oracle.ok s.idx = true
    · have h : set_tx_power p s = cache_power p
          (spiStep s (.write Register.PaLevel.addr [pa_level_of p s.is_high_power])) := by
        unfold set_tx_power mbind write_register write_many
        rw [if_pos hok]
      rw [h]
      simp [cache_power, resState, spiStep]
    · have h : set_tx_power p s = .err .SpiWriteError
          (spiStep s (.write Register.PaLevel.addr [pa_level_of p s.is_high_power])) := by
        unfold set_tx_power mbind write_register write_many
        rw [if_neg hok]
      rw [h]
      simp [resState, spiStep]
  · intro s2 hok2
    unfold set_tx_power at hok2
    obtain ⟨_, s3, _, hc⟩ := mbind_ok hok2
    unfold cache_power at hc
    injection hc with h1 h2
    rw [← h2]
  · intro hlo hhi
    have hc : clampI p (-2) 20 = p := by unfold clampI; omega
    simp only [pa_level_of, claimPaLevel, hc, if_true]

/-- C1 witness: at the in-range input -2 the amended law coincides with the
claim law. -/
theorem C1_set_tx_power_witness : pa_level_of (-2) true = claimPaLevel (-2) true :=
  (C1_set_tx_power (-2) st0).2.2.2 (by decide) (by decide)

theorem freq_bytes_eq (freq_mhz : Nat) :
    [(((freq_mhz * RF69_FSTEP) % 4294967296 / RF69_FXOSC) >>> 16) &&& 0xFF,
     (((freq_mhz * RF69_FSTEP) % 4294967296 / RF69_FXOSC) >>> 8) &&& 0xFF,
     ((freq_mhz * RF69_FSTEP) % 4294967296 / RF69_FXOSC) &&& 0xFF] =
      specFreqBytes freq_mhz := by
  have hand : ∀ m : Nat, m &&& 0xFF = m % 256 := fun m =>
    Nat.and_pow_two_sub_one_eq_mod m 8
  have h16 : ∀ m : Nat, m >>> 16 = m / 65536 := fun m =>
    Nat.shiftRight_eq_div_pow m 16
  have h8 : ∀ m : Nat, m >>> 8 = m / 256 := fun m =>
    Nat.shiftRight_eq_div_pow m 8
  unfold specFreqBytes RF69_FSTEP RF69_FXOSC
  simp only [hand, h16, h8, List.cons.injEq, and_true]
  refine ⟨by omega, by omega, by omega⟩

/-- C5: set_frequency issues one burst write at the FrfMsb register whose
bytes are exactly the spec law specFreqBytes (exact product, truncating
division, big-endian split): the wrapping u32 arithmetic of the source never
changes the three low bytes of the word; and specFreqBytes 915 is
E4 C0 00. -/
theorem C5_set_frequency (freq_mhz : Nat) (s : DState) :
    (resState (set_frequency freq_mhz s)).trace =
      s.trace ++ [SpiReq.write Register.FrfMsb.addr (specFreqBytes freq_mhz)] ∧
    specFreqBytes 915 = [0xE4, 0xC0, 0x00] := by
  constructor
  · rw [← freq_bytes_eq freq_mhz]
    exact write_many_trace Register.FrfMsb _ s
  · decide

/-- C10: when a transport transaction fails, a single-register read returns
SpiWriteError while a burst read returns SpiReadError; in particular
read_revision, rssi and is_message_available in Rx mode, all built on the
single-register read, report SpiWriteError. -/
theorem C10_read_error_kinds (s : DState) (r : Register) (n : Nat)
    (h : s.oracle.ok s.idx = false) :
    read_register r s = .err .SpiWriteError (spiStep s (.read r.addr 1)) ∧
    read_many r n s = .err .SpiReadError (spiStep s (.read r.addr n)) ∧
    read_revision s = .err .SpiWriteError (spiStep s (.read Register.Version.addr 1)) ∧
    rssi s = .err .SpiWriteError (spiStep s (.read Register.RssiValue.addr 1)) ∧
    (s.current_mode = Rfm69Mode.Rx →
      is_message_available s =
        .err .SpiWriteError (spiStep s (.read Register.IrqFlags2.addr 1))) := by
  refine ⟨?_, ?_, ?_, ?_, ?_⟩
  · simp [read_register, read_register_at, h]
  · simp [read_many, h]
  · simp [read_revision, read_register, read_register_at, h]
  · simp [rssi, mbind, read_register, read_register_at, h]
  · intro hm
    simp [is_message_available, hm, mbind, read_register, read_register_at, h]

/-- C10 witness: on a driver in Rx mode whose transport fails, rssi reports
SpiWriteError. -/
theorem C10_read_error_kinds_witness :
    rssi stFailAllRx =
      .err .SpiWriteError (spiStep stFailAllRx (.read Register.RssiValue.addr 1)) :=
  (C10_read_error_kinds stFailAllRx Register.Version 4 rfl).2.2.2.1

theorem read_register_ok {s : DState} {r : Register} (h : s.oracle.ok s.idx = true) :
    read_register r s =
      .ok ((fill (s.oracle.data s.idx) 1).headD 0) (spiStep s (.read r.addr 1)) := by
  unfold read_register read_register_at
  rw [if_pos h]

theorem read_many_ok {s : DState} {r : Register} {n : Nat}
    (h : s.oracle.ok s.idx = true) :
    read_many r n s =
      .ok (fill (s.oracle.data s.idx) n) (spiStep s (.read r.addr n)) := by
  unfold read_many
  rw [if_pos h]

theorem read_many_err {s : DState} {r : Register} {n : Nat}
    (h : s.oracle.ok s.idx = false) :
    read_many r n s = .err .SpiReadError (spiStep s (.read r.addr n)) := by
  unfold read_many
  rw [if_neg (by simp [h])]

theorem mbind_step {α β : Type} {x : M α} {f : α → M β} {s : DState} {a : α}
    {s2 : DState} (h : x s = .ok a s2) : mbind x f s = f a s2 := by
  unfold mbind
  rw [h]

theorem unwrapM_ok {α : Type} {x : M α} {s : DState} {a : α} {s2 : DState}
    (h : x s = .ok a s2) : unwrapM x s = .ok a s2 := by
  unfold unwrapM
  rw [h]

theorem unwrapM_panics {α : Type} {x : M α} {s : DState} {e : Rfm69Error}
    {s2 : DState} (h : x s = .err e s2) : unwrapM x s = .panic s2 := by
  unfold unwrapM
  rw [h]

theorem mbind_panic {α β : Type} {x : M α} {f : α → M β} {s s2 : DState}
    (h : x s = .panic s2) : mbind x f s = .panic s2 := by
  unfold mbind
  rw [h]

/-- C9: with a transport that answers the three reads, receive panics (u8
underflow of length minus 4, out-of-bounds slice in release) whenever the
length byte is below 4, and returns the count length minus 4 whenever the
length byte is at least 4 and fits the 65-byte buffer. -/
theorem C9_receive_length (s : DState)
    (h0 : s.oracle.ok s.idx = true)
    (h1 : s.oracle.ok (s.idx + 1) = true)
    (h2 : s.oracle.ok (s.idx + 2) = true) :
    ((fill (s.oracle.data s.idx) 1).headD 0 < 4 → isPanic (receive s) = true) ∧
    (4 ≤ (fill (s.oracle.data s.idx) 1).headD 0 →
      (fill (s.oracle.data s.idx) 1).headD 0 ≤ 65 →
      resVal (receive s) = some ((fill (s.oracle.data s.idx) 1).headD 0 - 4)) := by
  have h1b : (spiStep s (.read Register.Fifo.addr 1)).oracle.ok
      (spiStep s (.read Register.Fifo.addr 1)).idx = true := h1
  have h2b : (spiStep (spiStep s (.read Register.Fifo.addr 1))
        (.read Register.Fifo.addr 4)).oracle.ok
      (spiStep (spiStep s (.read Register.Fifo.addr 1))
        (.read Register.Fifo.addr 4)).idx = true := h2
  constructor
  · intro hlt
    have hcap : ¬ 65 < (fill (s.oracle.data s.idx) 1).headD 0 := by omega
    unfold receive
    rw [mbind_step (read_register_ok h0)]
    try simp only []
    rw [if_neg hcap, mbind_step (unwrapM_ok (read_many_ok h1b))]
    try simp only []
    rw [if_pos hlt]
    rfl
  · intro hge hcap
    have hcap2 : ¬ 65 < (fill (s.oracle.data s.idx) 1).headD 0 := by omega
    have hge2 : ¬ (fill (s.oracle.data s.idx) 1).headD 0 < 4 := by omega
    unfold receive
    rw [mbind_step (read_register_ok h0)]
    try simp only []
    rw [if_neg hcap2, mbind_step (unwrapM_ok (read_many_ok h1b))]
    try simp only []
    rw [if_neg hge2, mbind_step (unwrapM_ok (read_many_ok h2b))]
    rfl

/-- C9 witness: a length byte of 2 makes receive panic. -/
theorem C9_receive_length_witness : isPanic (receive stLenTwo) = true :=
  (C9_receive_length stLenTwo rfl rfl rfl).1 (by decide)

/-- C3 counterexample: with a transport whose length-byte read succeeds
(returning 9) and whose header burst read fails, receive panics instead of
returning an error value, refuting the claim that every hardware-access
failure inside receive is returned to the caller. -/
theorem C3_counterexample : isPanic (receive stFailSecond) = true := by decide

/-- C3 amended: a failing length-byte read is returned as SpiWriteError, but
a failing header burst read or payload burst read makes receive panic (the
source unwraps those two results) instead of returning an error. -/
theorem C3_receive_errors (s : DState) :
    (s.oracle.ok s.idx = false →
      receive s = .err .SpiWriteError (spiStep s (.read Register.Fifo.addr 1))) ∧
    (s.oracle.ok s.idx = true →
      (fill (s.oracle.data s.idx) 1).headD 0 ≤ 65 →
      s.oracle.ok (s.idx + 1) = false →
      isPanic (receive s) = true) ∧
    (s.oracle.ok s.idx = true →
      4 ≤ (fill (s.oracle.data s.idx) 1).headD 0 →
      (fill (s.oracle.data s.idx) 1).headD 0 ≤ 65 →
      s.oracle.ok (s.idx + 1) = true →
      s.oracle.ok (s.idx + 2) = false →
      isPanic (receive s) = true) := by
  refine ⟨?_, ?_, ?_⟩
  · intro h
    simp [receive, mbind, read_register, read_register_at, h]
  · intro h0 hcap h1
    have h1b : (spiStep s (.read Register.Fifo.addr 1)).oracle.ok
        (spiStep s (.read Register.Fifo.addr 1)).idx = false := h1
    have hcap2 : ¬ 65 < (fill (s.oracle.data s.idx) 1).headD 0 := by omega
    unfold receive
    rw [mbind_step (read_register_ok h0)]
    try simp only []
    rw [if_neg hcap2, mbind_panic (unwrapM_panics (read_many_err h1b))]
    rfl
  · intro h0 hge hcap h1 h2
    have h1b : (spiStep s (.read Register.Fifo.addr 1)).oracle.ok
        (spiStep s (.read Register.Fifo.addr 1)).idx = true := h1
    have h2b : (spiStep (spiStep s (.read Register.Fifo.addr 1))
          (.read Register.Fifo.addr 4)).oracle.ok
        (spiStep (spiStep s (.read Register.Fifo.addr 1))
          (.read Register.Fifo.addr 4)).idx = false := h2
    have hcap2 : ¬ 65 < (fill (s.oracle.data s.idx) 1).headD 0 := by omega
    have hge2 : ¬ (fill (s.oracle.data s.idx) 1).headD 0 < 4 := by omega
    unfold receive
    rw [mbind_step (read_register_ok h0)]
    try simp only []
    rw [if_neg hcap2, mbind_step (unwrapM_ok (read_many_ok h1b))]
    try simp only []
    rw [if_neg hge2, mbind_panic (unwrapM_panics (read_many_err h2b))]
    rfl

/-- C3 witness: a transport failing from the start makes receive return
SpiWriteError for the length-byte read. -/
theorem C3_receive_errors_witness :
    receive stFailAllRx =
      .err .SpiWriteError (spiStep stFailAllRx (.read Register.Fifo.addr 1)) :=
  (C3_receive_errors stFailAllRx).1 rfl

/-- C2: send rejects a payload of more than 60 bytes with MessageTooLarge
before any transport transaction (the state, hence the trace, is untouched);
for a payload of at most 60 bytes the first transport transaction is a
single burst write to the Fifo register of the length byte payload length
plus 4, the header FF FF 00 00, then the payload bytes in order. -/
theorem C2_send (fuel : Nat) (data : List Nat) (s : DState) :
    (60 < data.length → send fuel data s = .err .MessageTooLarge s) ∧
    (data.length ≤ 60 →
      ∃ t : List SpiReq, (resState (send fuel data s)).trace =
        s.trace ++ SpiReq.write Register.Fifo.addr
          ((data.length + 4) :: 0xFF :: 0xFF :: 0x00 :: 0x00 :: data) :: t) := by
  constructor
  · intro h
    unfold send
    rw [if_pos h]
  · intro h
    have hno : ¬ 60 < data.length := by omega
    have hfr : frame data = (data.length + 4) :: 0xFF :: 0xFF :: 0x00 :: 0x00 :: data := by
      unfold frame
      congr 1
      omega
    unfold send
    rw [if_neg hno, ← hfr]
    exact mbind_write_trace Register.Fifo (frame data) _
      (extendsTrace_mbind (extendsTrace_set_mode fuel .Tx) (fun _ =>
        extendsTrace_mbind (extendsTrace_wait_packet_sent fuel) (fun _ =>
          extendsTrace_set_mode fuel .Standby)) ) s

/-- C2 witness: a three-byte payload leads with the frame burst write. -/
theorem C2_send_witness :
    ([1, 2, 3] : List Nat).length ≤ 60 ∧
    ∃ t : List SpiReq, (resState (send 1 [1, 2, 3] st0)).trace =
      st0.trace ++ SpiReq.write Register.Fifo.addr
        ((([1, 2, 3] : List Nat).length + 4) :: 0xFF :: 0xFF :: 0x00 :: 0x00 :: [1, 2, 3]) :: t :=
  ⟨by decide, (C2_send 1 [1, 2, 3] st0).2 (by decide)⟩

/-- C8: when the cached mode already equals the target, set_mode returns
success with the state, hence the transaction trace and the cached mode,
entirely unchanged; consequently after any successful set_mode to m a second
set_mode to m is such a transaction-free no-op. -/
theorem C8_set_mode_idempotent (fuel fuel2 : Nat) (m : Rfm69Mode) (s : DState) :
    (s.current_mode = m → set_mode fuel m s = .ok () s) ∧
    (∀ s2 : DState, set_mode fuel m s = .ok () s2 →
      set_mode fuel2 m s2 = .ok () s2) := by
  constructor
  · intro hm
    unfold set_mode
    rw [if_pos hm]
  · intro s2 h
    have hm := set_mode_ok_mode h
    unfold set_mode
    rw [if_pos hm]

/-- C8 witness: on a fresh driver, already in Standby, set_mode Standby is a
transaction-free no-op. -/
theorem C8_set_mode_idempotent_witness :
    set_mode 1 Rfm69Mode.Standby st0 = .ok () st0 :=
  (C8_set_mode_idempotent 1 1 Rfm69Mode.Standby st0).1 rfl

/-- C7 counterexample: on a fresh driver with an all-zero transport, the
list returned by read_all_registers carries five individually-addressed
test-register pairs after the 79 burst-read core pairs, at addresses 0x58,
0x5A, 0x5C, 0x6F and 0x71 — not the exactly four the claim states. -/
theorem C7_counterexample :
    (resVal (read_all_registers st0)).map (fun l => (l.drop 79).map Prod.fst) =
      some [0x58, 0x5A, 0x5C, 0x6F, 0x71] ∧
    ([0x58, 0x5A, 0x5C, 0x6F, 0x71] : List Nat).length ≠ 4 := by
  refine ⟨by decide, by decide⟩

/-- C7 amended: when its six transactions succeed, read_all_registers
returns the 79 core pairs (addresses 1 to 0x4F, from one burst read)
followed by five individually-addressed test registers at 0x58, 0x5A, 0x5C,
0x6F and 0x71; its trace is that one burst read followed by the five single
reads; and the cached driver fields (power, topology, mode) are unchanged. -/
theorem C7_read_all_registers (s : DState)
    (h0 : s.oracle.ok s.idx = true) (h1 : s.oracle.ok (s.idx + 1) = true)
    (h2 : s.oracle.ok (s.idx + 2) = true) (h3 : s.oracle.ok (s.idx + 3) = true)
    (h4 : s.oracle.ok (s.idx + 4) = true) (h5 : s.oracle.ok (s.idx + 5) = true) :
    ∃ bank : List Nat, ∃ t0 t1 t2 t3 t4 : Nat, ∃ s2 : DState,
      read_all_registers s = .ok
        (((List.range 79).map (fun index => (index + 1, bank.getD index 0))) ++
          [(0x58, t0), (0x5A, t1), (0x5C, t2), (0x6F, t3), (0x71, t4)]) s2 ∧
      s2.trace = s.trace ++
        [SpiReq.read Register.RegOpMode.addr 79, SpiReq.read 0x58 1,
         SpiReq.read 0x5A 1, SpiReq.read 0x5C 1, SpiReq.read 0x6F 1,
         SpiReq.read 0x71 1] ∧
      s2.tx_power = s.tx_power ∧ s2.is_high_power = s.is_high_power ∧
      s2.current_mode = s.current_mode := by
  have g1 : s.oracle.ok (s.idx + 1) = true := h1
  have g2 : s.oracle.ok (s.idx + 1 + 1) = true := h2
  have g3 : s.oracle.ok (s.idx + 1 + 1 + 1) = true := h3
  have g4 : s.oracle.ok (s.idx + 1 + 1 + 1 + 1) = true := h4
  have g5 : s.oracle.ok (s.idx + 1 + 1 + 1 + 1 + 1) = true := h5
  simp only [read_all_registers, mbind, read_register, read_register_at,
    read_many, mpure, spiStep, h0, g1, g2, g3, g4, g5, if_true]
  refine ⟨fill (s.oracle.data s.idx) 79,
    (fill (s.oracle.data (s.idx + 1)) 1).headD 0,
    (fill (s.oracle.data (s.idx + 1 + 1)) 1).headD 0,
    (fill (s.oracle.data (s.idx + 1 + 1 + 1)) 1).headD 0,
    (fill (s.oracle.data (s.idx + 1 + 1 + 1 + 1)) 1).headD 0,
    (fill (s.oracle.data (s.idx + 1 + 1 + 1 + 1 + 1)) 1).headD 0,
    { oracle := s.oracle, idx := s.idx + 1 + 1 + 1 + 1 + 1 + 1,
      trace := s.trace ++ [SpiReq.read Register.RegOpMode.addr 79] ++
        [SpiReq.read Register.TestLna.addr 1] ++
        [SpiReq.read Register.TestPa1.addr 1] ++
        [SpiReq.read Register.TestPa2.addr 1] ++
        [SpiReq.read Register.TestDagc.addr 1] ++ [SpiReq.read TESTAFC_ADDR 1],
      tx_power := s.tx_power, is_high_power := s.is_high_power,
      current_mode := s.current_mode },
    rfl, by simp [List.append_assoc, Register.addr, TESTAFC_ADDR], rfl, rfl, rfl⟩

/-- C7 witness: the amended shape at the fresh driver state. -/
theorem C7_read_all_registers_witness :
    ∃ bank : List Nat, ∃ t0 t1 t2 t3 t4 : Nat, ∃ s2 : DState,
      read_all_registers st0 = .ok
        (((List.range 79).map (fun index => (index + 1, bank.getD index 0))) ++
          [(0x58, t0), (0x5A, t1), (0x5C, t2), (0x6F, t3), (0x71, t4)]) s2 ∧
      s2.trace = st0.trace ++
        [SpiReq.read Register.RegOpMode.addr 79, SpiReq.read 0x58 1,
         SpiReq.read 0x5A 1, SpiReq.read 0x5C 1, SpiReq.read 0x6F 1,
         SpiReq.read 0x71 1] ∧
      s2.tx_power = st0.tx_power ∧ s2.is_high_power = st0.is_high_power ∧
      s2.current_mode = st0.current_mode :=
  C7_read_all_registers st0 rfl rfl rfl rfl rfl rfl

end Rfm69
